import Mathlib

/-!
Verification of the credit-approval decision core of the repository
(backend/core/views.py, backend/core/utils.py, backend/core/models.py).

Modelling conventions:
* Python `decimal.Decimal` values and Python floats are modelled as exact
  rationals (ℚ); `Decimal.quantize(Decimal('0.01'))` with the default
  `ROUND_HALF_EVEN` context is `quantize2` below.
* Python `int` is modelled as ℤ and Python dates as day ordinals in ℤ
  (only their linear order is used by the code).
* A raised Python exception is modelled as `Except.error`.
-/

namespace CreditApproval

/-- Banker rounding of a rational to the nearest integer, ties to even:
the rounding mode `ROUND_HALF_EVEN` used by the default `decimal` context. -/
def roundHalfEven (q : ℚ) : ℤ :=
  if q - ⌊q⌋ < 1/2 then ⌊q⌋
  else if 1/2 < q - (⌊q⌋ : ℚ) then ⌊q⌋ + 1
  else if Even ⌊q⌋ then ⌊q⌋ else ⌊q⌋ + 1

/-- `Decimal(x).quantize(Decimal(0.01))`: round to two fractional digits,
ties to even. -/
def quantize2 (q : ℚ) : ℚ := (roundHalfEven (100 * q) : ℚ) / 100

/-- `calculate_emi` from backend/core/views.py, lines 20 to 38 (the helper the
live endpoints call).  Note the first guard returns `Decimal(0.00)` when the
annual rate or the tenure is zero, so the later `monthly_interest_rate == 0`
branch (the straight-line division) is unreachable.

This total function collapses the single raising input class of the Python
function: when the monthly factor `1 + rate/12/100` is zero (annual rate
exactly -1200) and the tenure is negative, Python's decimal evaluates
`0 ** negative` to `Infinity` without trapping and the subsequent
`Infinity / Infinity` (or `0 * Infinity` for a zero principal) raises
`decimal.InvalidOperation`; rational `zpow` instead gives the power the
value 0 here, so this function returns 0 on that class.
`calculate_emi_exn` below makes the error path explicit; every other claim
about `calculate_emi` stays outside that input class. -/
def calculate_emi (loan_amount annual_interest_rate : ℚ) (tenure_months : ℤ) : ℚ :=
  if annual_interest_rate = 0 ∨ tenure_months = 0 then 0
  else if annual_interest_rate / 12 / 100 = 0 then
    quantize2 (loan_amount / (tenure_months : ℚ))
  else if (1 + annual_interest_rate / 12 / 100) ^ tenure_months - 1 = 0 then 0
  else
    quantize2 (loan_amount * (annual_interest_rate / 12 / 100) *
      (1 + annual_interest_rate / 12 / 100) ^ tenure_months /
      ((1 + annual_interest_rate / 12 / 100) ^ tenure_months - 1))

/-- `calculate_emi` from backend/core/views.py with its raising behaviour made
explicit.  Past the zero guard, the one input class on which the Python
function raises (uncaught) is a zero monthly factor with a negative tenure:
`(1 + monthly_interest_rate) ** tenure_months` is then `Decimal(0) **
negative`, which evaluates to `Infinity` (both decimal implementations; no
trap fires at the power), and the EMI expression then raises
`decimal.InvalidOperation` from `Infinity / Infinity` (or `0 * Infinity`).
On every other input the function returns the value of the total model
`calculate_emi`. -/
def calculate_emi_exn (loan_amount annual_interest_rate : ℚ) (tenure_months : ℤ) :
    Except String ℚ :=
  if annual_interest_rate = 0 ∨ tenure_months = 0 then Except.ok 0
  else if 1 + annual_interest_rate / 12 / 100 = 0 ∧ tenure_months < 0 then
    Except.error ("InvalidOperation")
  else Except.ok (calculate_emi loan_amount annual_interest_rate tenure_months)

/-- `calculate_emi` from backend/core/utils.py, lines 7 to 32 (dead code: the
module is imported nowhere).  Unlike the views.py twin it divides
`loan_amount / tenure_months` for a zero rate (without quantizing).  Error
paths, in source order:
* zero rate with zero tenure: the straight-line division raises a
  `ZeroDivisionError` (`decimal.DivisionByZero`) uncaught;
* zero monthly factor (annual rate exactly -1200) with negative tenure:
  inside the try block, `Decimal(0) ** negative` evaluates to `Infinity`
  and the EMI expression raises `decimal.InvalidOperation`, which is NOT a
  subclass of `ZeroDivisionError`, so the except clause does not catch it
  and it propagates;
* a zero compounding denominator (tenure 0, or monthly factor -1 with even
  tenure): the division raises `decimal.DivisionByZero`, which IS caught,
  and the fallback straight-line division is returned unquantized, itself
  raising (uncaught) when the tenure is 0. -/
def utils_calculate_emi (loan_amount annual_interest_rate : ℚ) (tenure_months : ℤ) :
    Except String ℚ :=
  if annual_interest_rate = 0 then
    if tenure_months = 0 then Except.error ("ZeroDivisionError")
    else Except.ok (loan_amount / (tenure_months : ℚ))
  else if 1 + annual_interest_rate / 100 / 12 = 0 ∧ tenure_months < 0 then
    Except.error ("InvalidOperation")
  else if (1 + annual_interest_rate / 100 / 12) ^ tenure_months - 1 = 0 then
    if tenure_months = 0 then Except.error ("ZeroDivisionError")
    else Except.ok (loan_amount / (tenure_months : ℚ))
  else
    Except.ok (quantize2 (loan_amount * (annual_interest_rate / 100 / 12) *
      (1 + annual_interest_rate / 100 / 12) ^ tenure_months /
      ((1 + annual_interest_rate / 100 / 12) ^ tenure_months - 1)))

/-- The fields of `core.models.Loan` that the decision logic reads.
`end_date` is nullable in the model (`null=True`), hence `Option`. -/
structure Loan where
  loan_amount : ℚ
  tenure : ℤ
  interest_rate : ℚ
  monthly_installment : ℚ
  emis_paid_on_time : ℤ
  end_date : Option ℤ
  loan_approved : Bool
deriving DecidableEq

/-- The fields of `core.models.Customer` that the decision logic reads. -/
structure Customer where
  monthly_salary : ℚ
  approved_limit : ℚ
  current_debt : ℚ
deriving DecidableEq

/-- `customer.loan_set.filter(loan_approved=True, end_date__gte=date.today())`:
the Django filter drops rows with a NULL `end_date`. -/
def activeLoans (loans : List Loan) (today : ℤ) : List Loan :=
  loans.filter fun l =>
    l.loan_approved && (match l.end_date with
      | some d => decide (today ≤ d)
      | none => false)

/-- `active_loans.aggregate(Sum(monthly_installment)) or Decimal(0.00)`. -/
def totalCurrentEmis (loans : List Loan) (today : ℤ) : ℚ :=
  ((activeLoans loans today).map fun l => l.monthly_installment).sum

/-- `customer.loan_set.aggregate(Sum(tenure)) or 1`: Python `or` replaces a
falsy sum (0, and None for an empty set) by 1. -/
def totalTenureSum (loans : List Loan) : ℤ :=
  if ((loans.map fun l => l.tenure).sum) = 0 then 1
  else (loans.map fun l => l.tenure).sum

/-- `customer.loan_set.aggregate(Sum(emis_paid_on_time)) or 0` (the `or 0`
maps both None and 0 to 0, hence it is the plain sum). -/
def totalEmisPaidOnTime (loans : List Loan) : ℤ :=
  (loans.map fun l => l.emis_paid_on_time).sum

/-- `(total_emis_paid_on_time / total_tenure_sum) * 100` (Python float
division of two ints, modelled exactly in ℚ). -/
def creditScorePercentage (loans : List Loan) : ℚ :=
  (totalEmisPaidOnTime loans : ℚ) / (totalTenureSum loans : ℚ) * 100

/-- Rule 2 of the eligibility logic (views.py lines 108 to 141 and its verbatim
copy at lines 249 to 267): `some r` means the evaluation continues with final
rate `r`, `none` means rejection for poor repayment history. -/
def finalRateAfterHistory (loans : List Loan) (interest_rate : ℚ) : Option ℚ :=
  if 0 < loans.length then
    if creditScorePercentage loans > 85 then some interest_rate
    else if 85 ≥ creditScorePercentage loans ∧ creditScorePercentage loans > 60 then
      some (max interest_rate 12)
    else if 60 ≥ creditScorePercentage loans ∧ creditScorePercentage loans > 40 then
      some (max interest_rate 16)
    else none
  else some interest_rate

def msgSalary : String :=
  "Loan rejected: Total EMIs (including proposed) exceed 50% of monthly salary"

def msgPoorHistory : String :=
  "Loan rejected: Poor past loan repayment history (less than 40% EMIs on time)"

def msgDebtLimit : String :=
  "Loan rejected: Proposed loan amount plus current debt exceeds approved limit"

def msgEligible : String := "Loan is eligible for approval"

def msgApproved : String := "Loan approved"

/-- The decision-bearing fields of the response body built by
`CheckEligibilityView.post` (views.py lines 88 to 169).  All fields are always
populated: a rejection echoes the requested rate, the proposed installment and
the requested tenure. -/
structure CheckResponse where
  loan_approved : Bool
  interest_rate : ℚ
  monthly_installment : ℚ
  tenure : ℤ
  message : String
deriving DecidableEq

/-- The tuple returned by `CreateLoanView._run_eligibility_checks`
(views.py lines 237 to 275). -/
structure CreateDecision where
  approved : Bool
  interest_rate : Option ℚ
  monthly_installment : Option ℚ
  tenure : Option ℤ
  message : String
deriving DecidableEq

/-- The business-logic part of `CheckEligibilityView.post` (views.py lines
88 to 169), after the serializer and customer lookup have succeeded. -/
def checkEligibility (customer : Customer) (loans : List Loan) (today : ℤ)
    (loan_amount : ℚ) (tenure : ℤ) (interest_rate : ℚ) : CheckResponse :=
  if totalCurrentEmis loans today + calculate_emi loan_amount interest_rate tenure >
      customer.monthly_salary * (1/2) then
    { loan_approved := false, interest_rate := interest_rate,
      monthly_installment := calculate_emi loan_amount interest_rate tenure,
      tenure := tenure, message := msgSalary }
  else
    match finalRateAfterHistory loans interest_rate with
    | none =>
      { loan_approved := false, interest_rate := interest_rate,
        monthly_installment := calculate_emi loan_amount interest_rate tenure,
        tenure := tenure, message := msgPoorHistory }
    | some final_interest_rate =>
      if customer.current_debt + loan_amount > customer.approved_limit then
        { loan_approved := false, interest_rate := interest_rate,
          monthly_installment := calculate_emi loan_amount interest_rate tenure,
          tenure := tenure, message := msgDebtLimit }
      else
        { loan_approved := true, interest_rate := final_interest_rate,
          monthly_installment := calculate_emi loan_amount final_interest_rate tenure,
          tenure := tenure, message := msgEligible }

/-- `CreateLoanView._run_eligibility_checks` (views.py lines 237 to 275). -/
def runEligibilityChecks (customer : Customer) (loans : List Loan) (today : ℤ)
    (loan_amount : ℚ) (tenure : ℤ) (interest_rate : ℚ) : CreateDecision :=
  if totalCurrentEmis loans today + calculate_emi loan_amount interest_rate tenure >
      customer.monthly_salary * (1/2) then
    { approved := false, interest_rate := none, monthly_installment := none,
      tenure := none, message := msgSalary }
  else
    match finalRateAfterHistory loans interest_rate with
    | none =>
      { approved := false, interest_rate := none, monthly_installment := none,
        tenure := none, message := msgPoorHistory }
    | some final_interest_rate =>
      if customer.current_debt + loan_amount > customer.approved_limit then
        { approved := false, interest_rate := none, monthly_installment := none,
          tenure := none, message := msgDebtLimit }
      else
        { approved := true, interest_rate := some final_interest_rate,
          monthly_installment := some (calculate_emi loan_amount final_interest_rate tenure),
          tenure := some tenure, message := msgApproved }

/-- The response body of `CreateLoanView.post` for the non-created cases. -/
structure CreateLoanResponse where
  loan_id : Option ℤ
  loan_approved : Bool
  message : String
  monthly_installment : Option ℚ
deriving DecidableEq

/-- `CreateLoanView.post` (views.py lines 193 to 235) after serializer
validation and customer lookup, as a transition on the persisted state
(customer row, loan rows).  On approval the source enters
`with transaction.atomic():` (line 208), but the name `transaction` is never
imported in views.py, so the call raises `NameError` before any row is
written; the rejection branch returns normally and writes nothing. -/
def createLoanPost (customer : Customer) (loans : List Loan) (today : ℤ)
    (loan_amount : ℚ) (tenure : ℤ) (interest_rate : ℚ) :
    Except String (Customer × List Loan × CreateLoanResponse) :=
  let d := runEligibilityChecks customer loans today loan_amount tenure interest_rate
  if d.approved then
    Except.error ("NameError: name transaction is not defined")
  else
    Except.ok (customer, loans,
      { loan_id := none, loan_approved := false, message := d.message,
        monthly_installment := none })

/-- The credit score exactly as the claim words it: (sum of emis_paid_on_time
across all historical loans) / (sum of tenure across all historical loans)
times 100, with no guard for a zero denominator.  It agrees with the
code's `creditScorePercentage` whenever the tenure sum is nonzero. -/
def claimedScore (loans : List Loan) : ℚ :=
  (((loans.map fun l => l.emis_paid_on_time).sum : ℤ) : ℚ) /
    (((loans.map fun l => l.tenure).sum : ℤ) : ℚ) * 100

/-- Proof infrastructure for the amortization formula: the present-value
factor, the sum of the discount factors of the n payment dates at monthly
rate r.  The raw (unrounded) EMI equals principal divided by this sum. -/
def geomS (r : ℚ) (n : ℕ) : ℚ := ∑ i ∈ Finset.range n, (1/(1+r))^(i+1)

instance {ε α : Type} [DecidableEq ε] [DecidableEq α] : DecidableEq (Except ε α) := fun a b =>
  match a, b with
  | Except.error x, Except.error y => decidable_of_iff (x = y) (by simp)
  | Except.error _, Except.ok _ => isFalse (by simp)
  | Except.ok _, Except.error _ => isFalse (by simp)
  | Except.ok x, Except.ok y => decidable_of_iff (x = y) (by simp)

attribute [local semireducible] Rat.add Rat.sub Rat.mul Rat.inv

theorem msgPoorHistory_ne_msgSalary : msgPoorHistory ≠ msgSalary := by decide

theorem msgDebtLimit_ne_msgSalary : msgDebtLimit ≠ msgSalary := by decide

theorem msgApproved_ne_msgSalary : msgApproved ≠ msgSalary := by decide

theorem msgEligible_ne_msgSalary : msgEligible ≠ msgSalary := by decide

theorem msgApproved_ne_msgDebtLimit : msgApproved ≠ msgDebtLimit := by decide

theorem msgEligible_ne_msgDebtLimit : msgEligible ≠ msgDebtLimit := by decide

theorem msgApproved_ne_msgPoorHistory : msgApproved ≠ msgPoorHistory := by decide

theorem msgEligible_ne_msgPoorHistory : msgEligible ≠ msgPoorHistory := by decide

theorem msgDebtLimit_ne_msgPoorHistory : msgDebtLimit ≠ msgPoorHistory := by decide

/-- C1: the claim states that for P > 0, N > 0 a zero-rate call returns
P / N rounded to two decimals.  The live calculator (views.py) instead
returns 0.00 for every zero-rate call: its first guard short-circuits, the
straight-line branch below it is unreachable.  At P = 100, N = 4 the claimed
value is 25.00 (which the utils.py twin, and the dead branch, would produce),
but the code yields 0.00. -/
theorem C1_zero_rate_code_bug :
    calculate_emi 100 0 4 = 0 ∧
    utils_calculate_emi 100 0 4 = Except.ok 25 ∧
    quantize2 ((100 : ℚ) / 4) = 25 := by decide

/-- C9 counterexample: a call with tenure 0 returns the numeric result 0.00
instead of failing with an invalid-argument condition, and a call with
negative principal returns a numeric installment on both calculators. -/
theorem C9_counterexample :
    calculate_emi 100 10 0 = 0 ∧
    utils_calculate_emi (-100) 10 12 = Except.ok (-879/100) := by decide

/-- C9 amended: neither calculator signals an invalid-argument condition on
the claimed inputs.  A zero term (or zero rate) makes the live calculator
return the numeric 0.00, and negative principal, negative rate, or negative
term return numeric installments (EMI(-100, 10, 12) = -8.79,
EMI(100, -10, 12) = 7.89, EMI(100, 10, -1) = -100.00).  The live calculator
fails only with the arithmetic `decimal.InvalidOperation`, raised exactly
at annual rate -1200 (zero monthly factor) with negative tenure; on that
same class the dead utils.py copy raises the same uncaught error, and it
additionally raises a `ZeroDivisionError` on a zero term. -/
theorem C9_no_validation :
    (∀ (P R : ℚ) (N : ℤ), R = 0 ∨ N = 0 → calculate_emi_exn P R N = Except.ok 0) ∧
    (∀ (P R : ℚ) (N : ℤ), ¬ (1 + R / 12 / 100 = 0 ∧ N < 0) →
      ∃ q, calculate_emi_exn P R N = Except.ok q) ∧
    calculate_emi_exn (-100) 10 12 = Except.ok (-879/100) ∧
    calculate_emi_exn 100 (-10) 12 = Except.ok (789/100) ∧
    calculate_emi_exn 100 10 (-1) = Except.ok (-100) ∧
    calculate_emi_exn 100 (-1200) (-3) = Except.error ("InvalidOperation") ∧
    utils_calculate_emi 100 10 0 = Except.error ("ZeroDivisionError") ∧
    utils_calculate_emi (-100) 10 12 = Except.ok (-879/100) ∧
    utils_calculate_emi 100 (-1200) (-3) = Except.error ("InvalidOperation") := by
  refine ⟨?_, ?_, by decide, by decide, by decide, by decide, by decide, by decide, by decide⟩
  · intro P R N h
    unfold calculate_emi_exn
    rw [if_pos h]
  · intro P R N h
    unfold calculate_emi_exn
    by_cases hg : R = 0 ∨ N = 0
    · rw [if_pos hg]
      exact ⟨0, rfl⟩
    · rw [if_neg hg, if_neg h]
      exact ⟨_, rfl⟩

/-- C9 witness: the amended theorem applied at rate 0 with tenure 7, and at a
negative-everything input off the failing class. -/
theorem C9_no_validation_witness :
    calculate_emi_exn 100 0 7 = Except.ok 0 ∧
    (∃ q, calculate_emi_exn (-5) (-7) (-9) = Except.ok q) :=
  ⟨C9_no_validation.1 100 0 7 (Or.inl rfl),
   C9_no_validation.2.1 (-5) (-7) (-9) (by decide)⟩

/-- C8: the eligibility checks approve (salary 100000, no history, debt 0,
limit 3600000; request 100000 over 12 months at 10 percent), yet
`CreateLoanView.post` raises `NameError` instead of persisting the loan and
incrementing the debt, because views.py never imports
`django.db.transaction`; a rejected request (salary 0) returns normally and
leaves the customer row and the loan rows unchanged. -/
theorem C8_create_loan_name_error :
    (runEligibilityChecks ⟨100000, 3600000, 0⟩ [] 0 100000 12 10).approved = true ∧
    createLoanPost ⟨100000, 3600000, 0⟩ [] 0 100000 12 10 =
      Except.error ("NameError: name transaction is not defined") ∧
    createLoanPost ⟨0, 200, 0⟩ [] 0 100 12 10 =
      Except.ok (⟨0, 200, 0⟩, [], ⟨none, false, msgSalary, none⟩) := by
  refine ⟨by decide, by decide, by decide⟩

/-- C5 counterexample: on a rejected request (salary 0, so the affordability
rule fires) both paths reject, but the create path reports a null final rate
while the check path reports the requested rate 10, so the two decisions are
not componentwise equal as the claim states. -/
theorem C5_counterexample :
    (checkEligibility ⟨0, 200, 0⟩ [] 0 100 12 10).loan_approved = false ∧
    (runEligibilityChecks ⟨0, 200, 0⟩ [] 0 100 12 10).approved = false ∧
    (checkEligibility ⟨0, 200, 0⟩ [] 0 100 12 10).interest_rate = 10 ∧
    (runEligibilityChecks ⟨0, 200, 0⟩ [] 0 100 12 10).interest_rate ≠
      some ((checkEligibility ⟨0, 200, 0⟩ [] 0 100 12 10).interest_rate) := by decide

/-- C6 counterexample: a rule failure on the check path is a fully populated
response whose rate and installment are NOT null: it echoes the requested
rate 10 and the proposed installment 8.79, contradicting the claimed
null rate and null installment for every rule failure. -/
theorem C6_counterexample :
    (checkEligibility ⟨0, 200, 0⟩ [] 5 100 12 10).loan_approved = false ∧
    (checkEligibility ⟨0, 200, 0⟩ [] 5 100 12 10).message = msgSalary ∧
    (checkEligibility ⟨0, 200, 0⟩ [] 5 100 12 10).interest_rate = 10 ∧
    (checkEligibility ⟨0, 200, 0⟩ [] 5 100 12 10).monthly_installment = 879/100 := by decide

/-- C7: the rules are applied in order and the first failing rule wins: on an
input that fails both the affordability condition and the debt-limit
condition, both evaluation paths reject with the affordability reason. -/
theorem C7_first_rule_wins (customer : Customer) (loans : List Loan) (today : ℤ)
    (loan_amount : ℚ) (tenure : ℤ) (interest_rate : ℚ)
    (h1 : totalCurrentEmis loans today + calculate_emi loan_amount interest_rate tenure >
      customer.monthly_salary * (1/2))
    (h3 : customer.current_debt + loan_amount > customer.approved_limit) :
    runEligibilityChecks customer loans today loan_amount tenure interest_rate =
      { approved := false, interest_rate := none, monthly_installment := none,
        tenure := none, message := msgSalary } ∧
    checkEligibility customer loans today loan_amount tenure interest_rate =
      { loan_approved := false, interest_rate := interest_rate,
        monthly_installment := calculate_emi loan_amount interest_rate tenure,
        tenure := tenure, message := msgSalary } := by
  constructor
  · unfold runEligibilityChecks
    rw [if_pos h1]
  · unfold checkEligibility
    rw [if_pos h1]

/-- C7 witness: salary 0, debt 90000, limit 100000, request 20000 at 10
percent over 12 months fails both rule 1 and rule 3; the decision carries
rule 1's reason on both paths. -/
theorem C7_first_rule_wins_witness :
    (runEligibilityChecks ⟨0, 100000, 90000⟩ [] 0 20000 12 10).message = msgSalary ∧
    (checkEligibility ⟨0, 100000, 90000⟩ [] 0 20000 12 10).message = msgSalary := by
  have h := C7_first_rule_wins ⟨0, 100000, 90000⟩ [] 0 20000 12 10 (by decide) (by decide)
  rw [h.1, h.2]
  exact ⟨rfl, rfl⟩

/-- C3: on both paths the decision is a rejection carrying the
50-percent-of-salary reason exactly when the sum of the monthly installments
of the active loans (approval flag set and end date on or after the
evaluation date) plus the installment of the requested loan at the requested
rate exceeds half the monthly salary. -/
theorem C3_affordability (customer : Customer) (loans : List Loan) (today : ℤ)
    (loan_amount : ℚ) (tenure : ℤ) (interest_rate : ℚ) :
    (((runEligibilityChecks customer loans today loan_amount tenure interest_rate).approved = false ∧
      (runEligibilityChecks customer loans today loan_amount tenure interest_rate).message = msgSalary) ↔
      totalCurrentEmis loans today + calculate_emi loan_amount interest_rate tenure >
        customer.monthly_salary * (1/2)) ∧
    (((checkEligibility customer loans today loan_amount tenure interest_rate).loan_approved = false ∧
      (checkEligibility customer loans today loan_amount tenure interest_rate).message = msgSalary) ↔
      totalCurrentEmis loans today + calculate_emi loan_amount interest_rate tenure >
        customer.monthly_salary * (1/2)) := by
  unfold runEligibilityChecks checkEligibility
  by_cases hc : totalCurrentEmis loans today + calculate_emi loan_amount interest_rate tenure >
      customer.monthly_salary * (1/2)
  · rw [if_pos hc, if_pos hc]
    exact ⟨⟨fun _ => hc, fun _ => ⟨rfl, rfl⟩⟩, ⟨fun _ => hc, fun _ => ⟨rfl, rfl⟩⟩⟩
  · rw [if_neg hc, if_neg hc]
    cases hfr : finalRateAfterHistory loans interest_rate with
    | none =>
      exact ⟨⟨fun h => absurd h.2 msgPoorHistory_ne_msgSalary, fun h => absurd h hc⟩,
        ⟨fun h => absurd h.2 msgPoorHistory_ne_msgSalary, fun h => absurd h hc⟩⟩
    | some r =>
      dsimp only
      by_cases hd : customer.current_debt + loan_amount > customer.approved_limit
      · rw [if_pos hd, if_pos hd]
        exact ⟨⟨fun h => absurd h.2 msgDebtLimit_ne_msgSalary, fun h => absurd h hc⟩,
          ⟨fun h => absurd h.2 msgDebtLimit_ne_msgSalary, fun h => absurd h hc⟩⟩
      · rw [if_neg hd, if_neg hd]
        exact ⟨⟨fun h => absurd h.2 msgApproved_ne_msgSalary, fun h => absurd h hc⟩,
          ⟨fun h => absurd h.2 msgEligible_ne_msgSalary, fun h => absurd h hc⟩⟩

/-- C4: once the affordability rule and the credit-scoring rule have passed,
both paths reject with the debt-limit reason exactly when current debt plus
the raw requested principal exceeds the approved limit (the comparison does
not involve the possibly adjusted rate). -/
theorem C4_debt_limit (customer : Customer) (loans : List Loan) (today : ℤ)
    (loan_amount : ℚ) (tenure : ℤ) (interest_rate : ℚ)
    (h1 : ¬ (totalCurrentEmis loans today + calculate_emi loan_amount interest_rate tenure >
      customer.monthly_salary * (1/2)))
    (h2 : finalRateAfterHistory loans interest_rate ≠ none) :
    (((runEligibilityChecks customer loans today loan_amount tenure interest_rate).approved = false ∧
      (runEligibilityChecks customer loans today loan_amount tenure interest_rate).message = msgDebtLimit) ↔
      customer.current_debt + loan_amount > customer.approved_limit) ∧
    (((checkEligibility customer loans today loan_amount tenure interest_rate).loan_approved = false ∧
      (checkEligibility customer loans today loan_amount tenure interest_rate).message = msgDebtLimit) ↔
      customer.current_debt + loan_amount > customer.approved_limit) := by
  unfold runEligibilityChecks checkEligibility
  rw [if_neg h1, if_neg h1]
  cases hfr : finalRateAfterHistory loans interest_rate with
  | none => exact absurd hfr h2
  | some r =>
    dsimp only
    by_cases hd : customer.current_debt + loan_amount > customer.approved_limit
    · rw [if_pos hd, if_pos hd]
      exact ⟨⟨fun _ => hd, fun _ => ⟨rfl, rfl⟩⟩, ⟨fun _ => hd, fun _ => ⟨rfl, rfl⟩⟩⟩
    · rw [if_neg hd, if_neg hd]
      exact ⟨⟨fun h => absurd h.2 msgApproved_ne_msgDebtLimit, fun h => absurd h hd⟩,
        ⟨fun h => absurd h.2 msgEligible_ne_msgDebtLimit, fun h => absurd h hd⟩⟩

/-- C4 witness: salary 1000000, debt 90000, limit 100000, no history;
requesting 20000 passes rules 1 and 2 and is rejected by the debt-limit
rule. -/
theorem C4_debt_limit_witness :
    (runEligibilityChecks ⟨1000000, 100000, 90000⟩ [] 0 20000 12 10).approved = false ∧
    (runEligibilityChecks ⟨1000000, 100000, 90000⟩ [] 0 20000 12 10).message = msgDebtLimit := by
  exact (C4_debt_limit ⟨1000000, 100000, 90000⟩ [] 0 20000 12 10
    (by decide) (by decide)).1.mpr (by decide)

/-- C5 amended: the check path and the create path always agree on the
approval flag and, on rejection, on the reason; on approval they agree on
the final rate, the installment and the tenure.  On rejection the paths
differ in payload: the create path reports null rate, installment and
tenure while the check path echoes the requested rate, the proposed
installment and the requested tenure. -/
theorem C5_paths_agree (customer : Customer) (loans : List Loan) (today : ℤ)
    (loan_amount : ℚ) (tenure : ℤ) (interest_rate : ℚ) :
    (checkEligibility customer loans today loan_amount tenure interest_rate).loan_approved =
      (runEligibilityChecks customer loans today loan_amount tenure interest_rate).approved ∧
    ((runEligibilityChecks customer loans today loan_amount tenure interest_rate).approved = false →
      (runEligibilityChecks customer loans today loan_amount tenure interest_rate).message =
        (checkEligibility customer loans today loan_amount tenure interest_rate).message ∧
      (runEligibilityChecks customer loans today loan_amount tenure interest_rate).interest_rate = none ∧
      (runEligibilityChecks customer loans today loan_amount tenure interest_rate).monthly_installment = none ∧
      (runEligibilityChecks customer loans today loan_amount tenure interest_rate).tenure = none ∧
      (checkEligibility customer loans today loan_amount tenure interest_rate).interest_rate = interest_rate ∧
      (checkEligibility customer loans today loan_amount tenure interest_rate).monthly_installment =
        calculate_emi loan_amount interest_rate tenure ∧
      (checkEligibility customer loans today loan_amount tenure interest_rate).tenure = tenure) ∧
    ((runEligibilityChecks customer loans today loan_amount tenure interest_rate).approved = true →
      (runEligibilityChecks customer loans today loan_amount tenure interest_rate).interest_rate =
        some (checkEligibility customer loans today loan_amount tenure interest_rate).interest_rate ∧
      (runEligibilityChecks customer loans today loan_amount tenure interest_rate).monthly_installment =
        some (checkEligibility customer loans today loan_amount tenure interest_rate).monthly_installment ∧
      (runEligibilityChecks customer loans today loan_amount tenure interest_rate).tenure =
        some (checkEligibility customer loans today loan_amount tenure interest_rate).tenure) := by
  unfold runEligibilityChecks checkEligibility
  by_cases hc : totalCurrentEmis loans today + calculate_emi loan_amount interest_rate tenure >
      customer.monthly_salary * (1/2)
  · rw [if_pos hc, if_pos hc]
    exact ⟨rfl, fun _ => ⟨rfl, rfl, rfl, rfl, rfl, rfl, rfl⟩, fun h => Bool.noConfusion h⟩
  · rw [if_neg hc, if_neg hc]
    cases hfr : finalRateAfterHistory loans interest_rate with
    | none =>
      exact ⟨rfl, fun _ => ⟨rfl, rfl, rfl, rfl, rfl, rfl, rfl⟩, fun h => Bool.noConfusion h⟩
    | some r =>
      dsimp only
      by_cases hd : customer.current_debt + loan_amount > customer.approved_limit
      · rw [if_pos hd, if_pos hd]
        exact ⟨rfl, fun _ => ⟨rfl, rfl, rfl, rfl, rfl, rfl, rfl⟩, fun h => Bool.noConfusion h⟩
      · rw [if_neg hd, if_neg hd]
        exact ⟨rfl, fun h => Bool.noConfusion h, fun _ => ⟨rfl, rfl, rfl⟩⟩

/-- C5 witness: on a concrete rejected request the two paths carry the same
rejection reason. -/
theorem C5_paths_agree_witness :
    (runEligibilityChecks ⟨0, 400, 0⟩ [] 0 100 12 10).message =
      (checkEligibility ⟨0, 400, 0⟩ [] 0 100 12 10).message :=
  ((C5_paths_agree ⟨0, 400, 0⟩ [] 0 100 12 10).2.1 (by decide)).1

/-- C6 amended: evaluation is total (both evaluators are plain functions that
never raise), and every rule failure is a normal decision with a populated
reason; however only the create path carries null rate, installment and
tenure on rejection, while the check path echoes the requested rate and the
proposed installment. -/
theorem C6_rejection_shape (customer : Customer) (loans : List Loan) (today : ℤ)
    (loan_amount : ℚ) (tenure : ℤ) (interest_rate : ℚ)
    (h : (runEligibilityChecks customer loans today loan_amount tenure interest_rate).approved = false) :
    (runEligibilityChecks customer loans today loan_amount tenure interest_rate).interest_rate = none ∧
    (runEligibilityChecks customer loans today loan_amount tenure interest_rate).monthly_installment = none ∧
    (runEligibilityChecks customer loans today loan_amount tenure interest_rate).tenure = none ∧
    (runEligibilityChecks customer loans today loan_amount tenure interest_rate).message ≠ "" ∧
    (checkEligibility customer loans today loan_amount tenure interest_rate).loan_approved = false ∧
    (checkEligibility customer loans today loan_amount tenure interest_rate).message =
      (runEligibilityChecks customer loans today loan_amount tenure interest_rate).message ∧
    (checkEligibility customer loans today loan_amount tenure interest_rate).interest_rate = interest_rate ∧
    (checkEligibility customer loans today loan_amount tenure interest_rate).monthly_installment =
      calculate_emi loan_amount interest_rate tenure := by
  revert h
  unfold runEligibilityChecks checkEligibility
  by_cases hc : totalCurrentEmis loans today + calculate_emi loan_amount interest_rate tenure >
      customer.monthly_salary * (1/2)
  · rw [if_pos hc, if_pos hc]
    exact fun _ => ⟨rfl, rfl, rfl, by decide, rfl, rfl, rfl, rfl⟩
  · rw [if_neg hc, if_neg hc]
    cases hfr : finalRateAfterHistory loans interest_rate with
    | none =>
      dsimp only
      exact fun _ => ⟨rfl, rfl, rfl, by decide, rfl, rfl, rfl, rfl⟩
    | some r =>
      dsimp only
      by_cases hd : customer.current_debt + loan_amount > customer.approved_limit
      · rw [if_pos hd, if_pos hd]
        exact fun _ => ⟨rfl, rfl, rfl, by decide, rfl, rfl, rfl, rfl⟩
      · rw [if_neg hd, if_neg hd]
        exact fun h => Bool.noConfusion h

/-- C6 witness: a concrete rejection carries a null rate on the create path
but the requested rate 10 on the check path. -/
theorem C6_rejection_shape_witness :
    (runEligibilityChecks ⟨0, 300, 0⟩ [] 0 100 12 10).interest_rate = none ∧
    (checkEligibility ⟨0, 300, 0⟩ [] 0 100 12 10).interest_rate = 10 := by
  have h := C6_rejection_shape ⟨0, 300, 0⟩ [] 0 100 12 10 (by decide)
  exact ⟨h.1, h.2.2.2.2.2.2.1⟩

/-- Helper: when rule 1 passes and rule 2 yields a final rate, the create-path
evaluation reduces to the debt-limit gate. -/
theorem run_after_rate (customer : Customer) (loans : List Loan) (today : ℤ)
    (loan_amount : ℚ) (tenure : ℤ) (interest_rate r : ℚ)
    (h1 : ¬ (totalCurrentEmis loans today + calculate_emi loan_amount interest_rate tenure >
      customer.monthly_salary * (1/2)))
    (hfr : finalRateAfterHistory loans interest_rate = some r) :
    runEligibilityChecks customer loans today loan_amount tenure interest_rate =
      (if customer.current_debt + loan_amount > customer.approved_limit then
        { approved := false, interest_rate := none, monthly_installment := none,
          tenure := none, message := msgDebtLimit }
      else
        { approved := true, interest_rate := some r,
          monthly_installment := some (calculate_emi loan_amount r tenure),
          tenure := some tenure, message := msgApproved }) := by
  unfold runEligibilityChecks
  rw [if_neg h1, hfr]

/-- Helper: when rule 1 passes and rule 2 yields a final rate, the outcome has
a message other than the poor-history reason, and if approved it carries
exactly that final rate. -/
theorem run_conclusions (customer : Customer) (loans : List Loan) (today : ℤ)
    (loan_amount : ℚ) (tenure : ℤ) (interest_rate r : ℚ)
    (h1 : ¬ (totalCurrentEmis loans today + calculate_emi loan_amount interest_rate tenure >
      customer.monthly_salary * (1/2)))
    (hfr : finalRateAfterHistory loans interest_rate = some r) :
    (runEligibilityChecks customer loans today loan_amount tenure interest_rate).message ≠
      msgPoorHistory ∧
    ((runEligibilityChecks customer loans today loan_amount tenure interest_rate).approved = true →
      (runEligibilityChecks customer loans today loan_amount tenure interest_rate).interest_rate =
        some r) := by
  have hrun := run_after_rate customer loans today loan_amount tenure interest_rate r h1 hfr
  by_cases hd : customer.current_debt + loan_amount > customer.approved_limit
  · rw [if_pos hd] at hrun
    rw [hrun]
    exact ⟨msgDebtLimit_ne_msgPoorHistory, fun h => Bool.noConfusion h⟩
  · rw [if_neg hd] at hrun
    rw [hrun]
    exact ⟨msgApproved_ne_msgPoorHistory, fun _ => rfl⟩

/-- Helper: when rule 1 passes and rule 2 rejects, the decision is the
poor-history rejection. -/
theorem run_poor (customer : Customer) (loans : List Loan) (today : ℤ)
    (loan_amount : ℚ) (tenure : ℤ) (interest_rate : ℚ)
    (h1 : ¬ (totalCurrentEmis loans today + calculate_emi loan_amount interest_rate tenure >
      customer.monthly_salary * (1/2)))
    (hfr : finalRateAfterHistory loans interest_rate = none) :
    (runEligibilityChecks customer loans today loan_amount tenure interest_rate).approved = false ∧
    (runEligibilityChecks customer loans today loan_amount tenure interest_rate).message =
      msgPoorHistory := by
  unfold runEligibilityChecks
  rw [if_neg h1, hfr]
  exact ⟨rfl, rfl⟩

/-- Helper: the code's score equals the score as the claim words it whenever
the historical tenure sum is nonzero (the code replaces a zero sum by 1). -/
theorem creditScore_eq_claimed (loans : List Loan)
    (h : ((loans.map fun l => l.tenure).sum) ≠ 0) :
    creditScorePercentage loans = claimedScore loans := by
  unfold creditScorePercentage claimedScore totalTenureSum totalEmisPaidOnTime
  rw [if_neg h]

/-- C2: once the affordability rule has passed, the credit-scoring rule
behaves as claimed: with no prior loan records the requested rate is kept
(and there is no poor-history rejection); otherwise, with score =
(sum of emis_paid_on_time) / (sum of tenure) × 100 over all historical
loans (well defined, i.e. nonzero tenure sum), a score above 85 keeps the
requested rate, a score in (60, 85] yields max(requested, 12.00), a score
in (40, 60] yields max(requested, 16.00), and a score of at most 40 rejects
with the poor-repayment-history reason.  The kept or adjusted rate is
observed in the decision whenever the evaluation approves. -/
theorem C2_credit_scoring (customer : Customer) (loans : List Loan) (today : ℤ)
    (loan_amount : ℚ) (tenure : ℤ) (interest_rate : ℚ)
    (h1 : ¬ (totalCurrentEmis loans today + calculate_emi loan_amount interest_rate tenure >
      customer.monthly_salary * (1/2))) :
    (loans = [] →
      (runEligibilityChecks customer loans today loan_amount tenure interest_rate).message ≠
        msgPoorHistory ∧
      ((runEligibilityChecks customer loans today loan_amount tenure interest_rate).approved = true →
        (runEligibilityChecks customer loans today loan_amount tenure interest_rate).interest_rate =
          some interest_rate)) ∧
    (loans ≠ [] → ((loans.map fun l => l.tenure).sum) ≠ 0 →
      (claimedScore loans > 85 →
        (runEligibilityChecks customer loans today loan_amount tenure interest_rate).message ≠
          msgPoorHistory ∧
        ((runEligibilityChecks customer loans today loan_amount tenure interest_rate).approved = true →
          (runEligibilityChecks customer loans today loan_amount tenure interest_rate).interest_rate =
            some interest_rate)) ∧
      (60 < claimedScore loans ∧ claimedScore loans ≤ 85 →
        (runEligibilityChecks customer loans today loan_amount tenure interest_rate).message ≠
          msgPoorHistory ∧
        ((runEligibilityChecks customer loans today loan_amount tenure interest_rate).approved = true →
          (runEligibilityChecks customer loans today loan_amount tenure interest_rate).interest_rate =
            some (max interest_rate 12))) ∧
      (40 < claimedScore loans ∧ claimedScore loans ≤ 60 →
        (runEligibilityChecks customer loans today loan_amount tenure interest_rate).message ≠
          msgPoorHistory ∧
        ((runEligibilityChecks customer loans today loan_amount tenure interest_rate).approved = true →
          (runEligibilityChecks customer loans today loan_amount tenure interest_rate).interest_rate =
            some (max interest_rate 16))) ∧
      (claimedScore loans ≤ 40 →
        (runEligibilityChecks customer loans today loan_amount tenure interest_rate).approved = false ∧
        (runEligibilityChecks customer loans today loan_amount tenure interest_rate).message =
          msgPoorHistory)) := by
  constructor
  · rintro rfl
    exact run_conclusions customer [] today loan_amount tenure interest_rate interest_rate h1 rfl
  · intro hne hsum
    have hlen : 0 < loans.length := List.length_pos.mpr hne
    have hcs : creditScorePercentage loans = claimedScore loans :=
      creditScore_eq_claimed loans hsum
    refine ⟨?_, ?_, ?_, ?_⟩
    · intro hs
      have hfr : finalRateAfterHistory loans interest_rate = some interest_rate := by
        unfold finalRateAfterHistory
        rw [if_pos hlen, if_pos (show creditScorePercentage loans > 85 by rw [hcs]; exact hs)]
      exact run_conclusions customer loans today loan_amount tenure interest_rate
        interest_rate h1 hfr
    · intro hs
      have hfr : finalRateAfterHistory loans interest_rate = some (max interest_rate 12) := by
        unfold finalRateAfterHistory
        rw [if_pos hlen,
          if_neg (show ¬ creditScorePercentage loans > 85 by rw [hcs]; linarith [hs.2]),
          if_pos (show 85 ≥ creditScorePercentage loans ∧ creditScorePercentage loans > 60 by
            rw [hcs]; exact ⟨hs.2, hs.1⟩)]
      exact run_conclusions customer loans today loan_amount tenure interest_rate
        (max interest_rate 12) h1 hfr
    · intro hs
      have hfr : finalRateAfterHistory loans interest_rate = some (max interest_rate 16) := by
        unfold finalRateAfterHistory
        rw [if_pos hlen,
          if_neg (show ¬ creditScorePercentage loans > 85 by rw [hcs]; linarith [hs.2]),
          if_neg (show ¬ (85 ≥ creditScorePercentage loans ∧ creditScorePercentage loans > 60) by
            rw [hcs]; exact fun h => absurd h.2 (by linarith [hs.2])),
          if_pos (show 60 ≥ creditScorePercentage loans ∧ creditScorePercentage loans > 40 by
            rw [hcs]; exact ⟨hs.2, hs.1⟩)]
      exact run_conclusions customer loans today loan_amount tenure interest_rate
        (max interest_rate 16) h1 hfr
    · intro hs
      have hfr : finalRateAfterHistory loans interest_rate = none := by
        unfold finalRateAfterHistory
        rw [if_pos hlen,
          if_neg (show ¬ creditScorePercentage loans > 85 by rw [hcs]; linarith),
          if_neg (show ¬ (85 ≥ creditScorePercentage loans ∧ creditScorePercentage loans > 60) by
            rw [hcs]; exact fun h => absurd h.2 (by linarith)),
          if_neg (show ¬ (60 ≥ creditScorePercentage loans ∧ creditScorePercentage loans > 40) by
            rw [hcs]; exact fun h => absurd h.2 (by linarith))]
      exact run_poor customer loans today loan_amount tenure interest_rate h1 hfr

/-- C2 witness: one historical loan with tenure 10 and 9 on-time payments
gives score 90, so a request at rate 10 is approved at the unchanged rate. -/
theorem C2_credit_scoring_witness :
    (runEligibilityChecks ⟨1000, 36000, 0⟩ [⟨100, 10, 10, 10, 9, none, true⟩]
      0 100 12 10).approved = true ∧
    (runEligibilityChecks ⟨1000, 36000, 0⟩ [⟨100, 10, 10, 10, 9, none, true⟩]
      0 100 12 10).interest_rate = some 10 := by
  have h := C2_credit_scoring ⟨1000, 36000, 0⟩ [⟨100, 10, 10, 10, 9, none, true⟩]
    0 100 12 10 (by decide)
  have h2 := (h.2 (by decide) (by decide)).1 (by decide)
  exact ⟨by decide, h2.2 (by decide)⟩

/-- Helper: banker rounding is monotone. -/
theorem roundHalfEven_mono (q1 q2 : ℚ) (h : q1 ≤ q2) :
    roundHalfEven q1 ≤ roundHalfEven q2 := by
  have hf : ⌊q1⌋ ≤ ⌊q2⌋ := Int.floor_le_floor h
  unfold roundHalfEven
  rcases lt_or_eq_of_le hf with hlt | heq
  · split_ifs <;> omega
  · rw [← heq]
    have hff : q1 - (⌊q1⌋ : ℚ) ≤ q2 - (⌊q1⌋ : ℚ) := by linarith
    split_ifs <;> first | omega | linarith

/-- Helper: quantization to cents is monotone. -/
theorem quantize2_mono (q1 q2 : ℚ) (h : q1 ≤ q2) : quantize2 q1 ≤ quantize2 q2 := by
  unfold quantize2
  have hr := roundHalfEven_mono (100 * q1) (100 * q2) (by linarith)
  have hc : ((roundHalfEven (100 * q1) : ℤ) : ℚ) ≤ ((roundHalfEven (100 * q2) : ℤ) : ℚ) :=
    Int.cast_le.mpr hr
  linarith

/-- Helper: closed form of the present-value factor at a positive rate. -/
theorem geomS_eq (r : ℚ) (hr : 0 < r) (n : ℕ) :
    geomS r n = ((1 + r) ^ n - 1) / (r * (1 + r) ^ n) := by
  have h1 : (1 : ℚ) + r ≠ 0 := by positivity
  have hr0 : r ≠ 0 := ne_of_gt hr
  induction n with
  | zero => simp [geomS]
  | succ n ih =>
    have hp : ((1 : ℚ) + r) ^ n ≠ 0 := pow_ne_zero _ h1
    rw [geomS, Finset.sum_range_succ,
      show (∑ i ∈ Finset.range n, (1/(1+r))^(i+1)) = geomS r n from rfl, ih]
    field_simp
    ring

/-- Helper: the present-value factor is positive. -/
theorem geomS_pos (r : ℚ) (hr : 0 < r) (n : ℕ) (hn : 0 < n) : 0 < geomS r n := by
  have hp : (0 : ℚ) < 1 + r := by linarith
  apply Finset.sum_pos
  · intro i _
    exact pow_pos (div_pos one_pos hp) _
  · exact Finset.nonempty_range_iff.mpr (Nat.pos_iff_ne_zero.mp hn)

/-- Helper: the present-value factor is antitone in the rate. -/
theorem geomS_anti_rate (r1 r2 : ℚ) (n : ℕ) (h1 : 0 < r1) (h12 : r1 ≤ r2) :
    geomS r2 n ≤ geomS r1 n := by
  apply Finset.sum_le_sum
  intro i _
  have hp1 : (0 : ℚ) < 1 + r1 := by linarith
  have hp2 : (0 : ℚ) < 1 + r2 := by linarith
  apply pow_le_pow_left₀ (le_of_lt (div_pos one_pos hp2))
  exact one_div_le_one_div_of_le hp1 (by linarith)

/-- Helper: the present-value factor grows with the number of payments. -/
theorem geomS_mono_len (r : ℚ) (hr : 0 < r) (n1 n2 : ℕ) (h : n1 ≤ n2) :
    geomS r n1 ≤ geomS r n2 := by
  have hp : (0 : ℚ) < 1 + r := by linarith
  apply Finset.sum_le_sum_of_subset_of_nonneg (Finset.range_subset.mpr h)
  intro i _ _
  exact le_of_lt (pow_pos (div_pos one_pos hp) _)

/-- Helper: at a positive rate and tenure the views.py calculator is the
quantized quotient of the principal by the present-value factor. -/
theorem calculate_emi_eq_div_geomS (P R : ℚ) (N : ℤ) (hR : 0 < R) (hN : 0 < N) :
    calculate_emi P R N = quantize2 (P / geomS (R/12/100) N.toNat) := by
  have hr : 0 < R/12/100 := by positivity
  have h1r : (0 : ℚ) < 1 + R/12/100 := by linarith
  have hRne : R ≠ 0 := ne_of_gt hR
  have hNne : N ≠ 0 := ne_of_gt hN
  have hNt : N = (N.toNat : ℤ) := (Int.toNat_of_nonneg (le_of_lt hN)).symm
  have htne : N.toNat ≠ 0 := by omega
  have hzpow : (1 + R/12/100) ^ N = (1 + R/12/100) ^ N.toNat := by
    conv_lhs => rw [hNt]
    exact zpow_natCast _ _
  have ha : 1 < (1 + R/12/100) ^ N.toNat := one_lt_pow₀ (by linarith) htne
  have hsub : (1 + R/12/100) ^ N.toNat - 1 ≠ 0 := sub_ne_zero.mpr (ne_of_gt ha)
  have hane : (1 + R/12/100) ^ N.toNat ≠ 0 := by positivity
  unfold calculate_emi
  rw [if_neg (by push_neg; exact ⟨hRne, hNne⟩), if_neg (ne_of_gt hr), hzpow,
    if_neg hsub]
  congr 1
  rw [geomS_eq _ hr]
  field_simp
  ring

/-- C10: with principal and tenure positive, the rounded installment is
monotone (non-decreasing) in the annual rate; with principal and rate
positive it is antitone (non-increasing) in the tenure.  Strict versions
fail only because of the final rounding to cents. -/
theorem C10_monotonicity (P R1 R2 R : ℚ) (N N1 N2 : ℤ) (hP : 0 < P) :
    (0 < R1 → R1 ≤ R2 → 0 < N → calculate_emi P R1 N ≤ calculate_emi P R2 N) ∧
    (0 < R → 0 < N1 → N1 ≤ N2 → calculate_emi P R N2 ≤ calculate_emi P R N1) := by
  constructor
  · intro h1 h12 hN
    rw [calculate_emi_eq_div_geomS P R1 N h1 hN,
      calculate_emi_eq_div_geomS P R2 N (lt_of_lt_of_le h1 h12) hN]
    apply quantize2_mono
    have hr1 : 0 < R1/12/100 := by positivity
    have hR2 : 0 < R2 := lt_of_lt_of_le h1 h12
    have hr2 : 0 < R2/12/100 := by positivity
    have hnt : 0 < N.toNat := by omega
    have hS1 := geomS_pos (R1/12/100) hr1 N.toNat hnt
    have hS2 := geomS_pos (R2/12/100) hr2 N.toNat hnt
    have hle : geomS (R2/12/100) N.toNat ≤ geomS (R1/12/100) N.toNat :=
      geomS_anti_rate _ _ _ hr1 (by linarith)
    rw [div_le_div_iff₀ hS1 hS2]
    exact mul_le_mul_of_nonneg_left hle (le_of_lt hP)
  · intro hR h1 h12
    have h2 : 0 < N2 := lt_of_lt_of_le h1 h12
    rw [calculate_emi_eq_div_geomS P R N2 hR h2,
      calculate_emi_eq_div_geomS P R N1 hR h1]
    apply quantize2_mono
    have hr : 0 < R/12/100 := by positivity
    have hnt1 : 0 < N1.toNat := by omega
    have hnt2 : 0 < N2.toNat := by omega
    have hS1 := geomS_pos (R/12/100) hr N1.toNat hnt1
    have hS2 := geomS_pos (R/12/100) hr N2.toNat hnt2
    have hle : geomS (R/12/100) N1.toNat ≤ geomS (R/12/100) N2.toNat :=
      geomS_mono_len _ hr _ _ (by omega)
    rw [div_le_div_iff₀ hS2 hS1]
    exact mul_le_mul_of_nonneg_left hle (le_of_lt hP)

/-- C10 witness: raising the rate from 10 to 12 percent does not lower the
installment of a 100-unit 12-month loan, and doubling the tenure to 24
months does not raise it. -/
theorem C10_monotonicity_witness :
    calculate_emi 100 10 12 ≤ calculate_emi 100 12 12 ∧
    calculate_emi 100 10 24 ≤ calculate_emi 100 10 12 := by
  have h := C10_monotonicity 100 10 12 10 12 12 24 (by decide)
  exact ⟨h.1 (by decide) (by decide) (by decide),
    h.2 (by decide) (by decide) (by decide)⟩

end CreditApproval
